import Mathlib

set_option maxRecDepth 4000

/-!
Shallow embedding of the tool dispatch and validation layer of the my-mcp
server: the request handlers of src/types/index.ts (list and call), the tool
definitions of src/tools/*.tool.ts, and the registry of src/tools/index.ts.

Modelling notes:
- JavaScript numbers are modelled as rationals; every numeric literal the
  schemas and the claims exercise is integral, and no claim depends on
  floating-point rounding.
- JSON argument objects are association lists; an absent key plays the role
  of `undefined`.
- The zod validator is embedded as an interpreter over a schema datatype
  covering exactly the combinators the repository uses: objects, strings with
  min-length and url checks, numbers with int, min and max checks, string
  enums, string literals, records of unknowns, arrays with min-length,
  optional, default, and discriminated unions. Issue messages reproduce the
  zod v3 English defaults for these combinators.
- Tool handlers that perform network or database I/O (the three registered
  tools) are taken as parameters of the registry: their observable outcome
  depends on the outside world, and no claim depends on their bodies. The two
  pure handlers in the repository (calculator, echo) are embedded in full.
- A dispatcher in Lean is a total function, which renders the "process does
  not terminate" parts of the claims: every call reduces to exactly one
  response value.
-/

namespace MyMcp

/-- JavaScript numbers, modelled as exact integer fractions. The fraction is
kept unnormalized and every semantic operation (integrality, zero test,
comparison, arithmetic, printing) reads it as num/den through
cross-multiplication, so all operations reduce inside the kernel. Every
number the repository schemas and the claims exercise is an integer n,
represented as n/1; a faithful value has a positive denominator, and every
constructor below preserves that. -/
structure JsNum where
  num : Int
  den : Int
deriving DecidableEq

instance (n : Nat) : OfNat JsNum n := ⟨⟨Int.ofNat n, 1⟩⟩

/-- JavaScript Number.isInteger on the modelled fraction. -/
def JsNum.isInt (a : JsNum) : Bool := a.num % a.den == 0

/-- JavaScript `=== 0` on the modelled fraction. -/
def JsNum.isZero (a : JsNum) : Bool := a.num == 0

/-- Strict order on modelled fractions with positive denominators. -/
def JsNum.lt (a b : JsNum) : Bool := a.num * b.den < b.num * a.den

/-- JavaScript addition. -/
def JsNum.add (a b : JsNum) : JsNum := ⟨a.num * b.den + b.num * a.den, a.den * b.den⟩

/-- JavaScript subtraction. -/
def JsNum.sub (a b : JsNum) : JsNum := ⟨a.num * b.den - b.num * a.den, a.den * b.den⟩

/-- JavaScript multiplication. -/
def JsNum.mul (a b : JsNum) : JsNum := ⟨a.num * b.num, a.den * b.den⟩

/-- JavaScript division, with the denominator kept positive; never applied
to a zero divisor (the one division in the repository is guarded). -/
def JsNum.div (a b : JsNum) : JsNum :=
  if b.num < 0 then ⟨-(a.num * b.den), -(a.den * b.num)⟩ else ⟨a.num * b.den, a.den * b.num⟩

/-- JSON-like argument values. There is no `undefined` value: an absent
object key models `undefined`. -/
inductive JValue where
  | str (s : String)
  | num (q : JsNum)
  | bool (b : Bool)
  | null
  | arr (elems : List JValue)
  | obj (fields : List (String × JValue))

/-- One segment of a zod issue path: an object key or an array index. -/
inductive PathSeg where
  | field (s : String)
  | index (n : Nat)
deriving DecidableEq

/-- One entry of a ZodError: a path into the arguments and a message. -/
structure ZodIssue where
  path : List PathSeg
  message : String
deriving DecidableEq

/-- The subset of zod schema combinators the repository uses. Every
constructor carries the optional description installed by `.describe`, which
zod stores on the same schema object. Check flags follow the order in which
the source chains them: for strings min then url, for numbers int then min
then max. -/
inductive ZodSchema where
  | zstring (minLen : Option Nat) (isUrl : Bool) (desc : Option String)
  | znumber (isInt : Bool) (minv : Option JsNum) (maxv : Option JsNum) (desc : Option String)
  | zenum (values : List String) (desc : Option String)
  | zliteral (lit : String) (desc : Option String)
  | zrecordUnknown (desc : Option String)
  | zarray (elem : ZodSchema) (minLen : Option Nat) (desc : Option String)
  | zobject (shape : List (String × ZodSchema)) (desc : Option String)
  | zoptional (inner : ZodSchema) (desc : Option String)
  | zdefault (inner : ZodSchema) (dflt : JValue) (desc : Option String)
  | zdiscUnion (disc : String) (branches : List ZodSchema) (desc : Option String)

/-- The `_def.typeName` tag zod stores on each schema object. -/
def ZodSchema.typeName : ZodSchema → String
  | .zstring _ _ _ => "ZodString"
  | .znumber _ _ _ _ => "ZodNumber"
  | .zenum _ _ => "ZodEnum"
  | .zliteral _ _ => "ZodLiteral"
  | .zrecordUnknown _ => "ZodRecord"
  | .zarray _ _ _ => "ZodArray"
  | .zobject _ _ => "ZodObject"
  | .zoptional _ _ => "ZodOptional"
  | .zdefault _ _ _ => "ZodDefault"
  | .zdiscUnion _ _ _ => "ZodDiscriminatedUnion"

/-- The `_def.description` slot read by the list handler, empty when unset. -/
def ZodSchema.descr : ZodSchema → Option String
  | .zstring _ _ d => d
  | .znumber _ _ _ d => d
  | .zenum _ d => d
  | .zliteral _ d => d
  | .zrecordUnknown d => d
  | .zarray _ _ d => d
  | .zobject _ d => d
  | .zoptional _ d => d
  | .zdefault _ _ d => d
  | .zdiscUnion _ _ d => d

/-- The optional chain `_def?.shape?.()` of the list handler: only a ZodObject
has a shape, every other schema yields nothing. -/
def ZodSchema.shapeOrNone : ZodSchema → Option (List (String × ZodSchema))
  | .zobject shape _ => some shape
  | _ => none

/-- The zod `.describe` method: a copy of the schema with the description
replaced on its outermost wrapper. -/
def ZodSchema.describe (s : ZodSchema) (d : String) : ZodSchema :=
  match s with
  | .zstring a b _ => .zstring a b (some d)
  | .znumber a b c _ => .znumber a b c (some d)
  | .zenum a _ => .zenum a (some d)
  | .zliteral a _ => .zliteral a (some d)
  | .zrecordUnknown _ => .zrecordUnknown (some d)
  | .zarray a b _ => .zarray a b (some d)
  | .zobject a _ => .zobject a (some d)
  | .zoptional a _ => .zoptional a (some d)
  | .zdefault a b _ => .zdefault a b (some d)
  | .zdiscUnion a b _ => .zdiscUnion a b (some d)

/-- True exactly for a schema produced by `.default(...)`. -/
def zHasDefault : ZodSchema → Bool
  | .zdefault _ _ _ => true
  | _ => false

/-- True exactly for a schema whose outermost wrapper is `.optional()`. -/
def zIsOptional : ZodSchema → Bool
  | .zoptional _ _ => true
  | _ => false

/-- The type tag zod reports for a received JSON value. -/
def jsTypeNameOf : JValue → String
  | .str _ => "string"
  | .num _ => "number"
  | .bool _ => "boolean"
  | .null => "null"
  | .arr _ => "array"
  | .obj _ => "object"

/-- A single-quote character, used by the zod enum messages. -/
def sq : String := "\x27"

/-- Zod `joinValues`: the expected-values list of enum and discriminator
messages, each value single-quoted, separated by a pipe. -/
def quoteJoin (vs : List String) : String :=
  String.intercalate " | " (vs.map fun v => sq ++ v ++ sq)

/-- Lean rendering of JavaScript number-to-string coercion. Integral values
print exactly as in JavaScript; non-integral values (never exercised by a
claim) are approximated by a fraction rendering. -/
def jsNumToString (q : JsNum) : String :=
  if q.num % q.den == 0 then toString (q.num / q.den)
  else toString q.num ++ "/" ++ toString q.den

/-- Character scan behind `jsUrlOk`: accumulate the scheme until the first
"://" and check scheme and remainder. -/
def urlOkAux : List Char → List Char → Bool
  | acc, ':' :: '/' :: '/' :: rest => !acc.isEmpty && acc.all Char.isAlpha && !rest.isEmpty
  | acc, c :: rest => urlOkAux (c :: acc) rest
  | _, [] => false

/-- The runtime validates URL syntax by handing the string to the host URL
constructor. Approximated as a nonempty alphabetic scheme followed by "://"
and a nonempty remainder; no claim depends on the outcome of this check. -/
def jsUrlOk (s : String) : Bool := urlOkAux [] s.data

/-- Prepend a path segment to every issue of a sublist, as zod does when it
descends into an object key or an array index. -/
def prefixIssues (seg : PathSeg) (issues : List ZodIssue) : List ZodIssue :=
  issues.map fun i => { i with path := seg :: i.path }

/-- The discriminator literal of one branch of a discriminated union. -/
def discLiteral (disc : String) : ZodSchema → Option String
  | .zobject shape _ =>
      match shape.find? fun p => p.1 == disc with
      | some (_, .zliteral v _) => some v
      | _ => none
  | _ => none

/-- Whether a branch of a discriminated union matches the received
discriminator value, as the zod options map does. -/
def discMatches (disc : String) (b : ZodSchema) (v? : Option JValue) : Bool :=
  match discLiteral disc b, v? with
  | some lit, some (.str s) => lit == s
  | _, _ => false

mutual

/-- Depth of a schema: an upper bound on the length of any chain of
subschemas entered by the parser, used as parse fuel. -/
def ZodSchema.depth : ZodSchema → Nat
  | .zstring _ _ _ => 1
  | .znumber _ _ _ _ => 1
  | .zenum _ _ => 1
  | .zliteral _ _ => 1
  | .zrecordUnknown _ => 1
  | .zarray elem _ _ => elem.depth + 1
  | .zobject shape _ => shapeDepth shape + 1
  | .zoptional inner _ => inner.depth + 1
  | .zdefault inner _ _ => inner.depth + 1
  | .zdiscUnion _ branches _ => branchesDepth branches + 1

/-- Depth of an object shape: the largest depth of any field schema. -/
def shapeDepth : List (String × ZodSchema) → Nat
  | [] => 0
  | (_, s) :: rest => max s.depth (shapeDepth rest)

/-- Depth of a union branch list: the largest depth of any branch. -/
def branchesDepth : List ZodSchema → Nat
  | [] => 0
  | b :: rest => max b.depth (branchesDepth rest)

end

/-- Fuel-indexed interpreter of zod `parse` for the embedded subset. The
input `none` plays the role of `undefined`. The result pairs the collected
issue list (all issues, not only the first) with the parsed value, which is
meaningful only when the issue list is empty; defaults are applied and
unknown object keys are stripped. Every recursive call strictly shrinks the
schema, and the fuel strictly decreases with it, so fuel `ZodSchema.depth s`
always suffices and the fuel-exhausted branch is unreachable. -/
def parseF : Nat → ZodSchema → Option JValue → List ZodIssue × Option JValue
  | 0, _, _ => ([{ path := [], message := "schema recursion fuel exhausted" }], none)
  | _ + 1, .zoptional _ _, none => ([], none)
  | fuel + 1, .zdefault inner dflt _, none => parseF fuel inner (some dflt)
  | _ + 1, .zliteral lit _, none =>
      ([{ path := [], message := "Invalid literal value, expected \"" ++ lit ++ "\"" }], none)
  | _ + 1, _, none => ([{ path := [], message := "Required" }], none)
  | fuel + 1, .zoptional inner _, some v => parseF fuel inner (some v)
  | fuel + 1, .zdefault inner _ _, some v => parseF fuel inner (some v)
  | _ + 1, .zstring minLen isUrl _, some v =>
      match v with
      | .str s =>
          let issues :=
            (match minLen with
              | some m =>
                  if s.length < m then
                    [{ path := [], message := "String must contain at least " ++ toString m ++ " character(s)" }]
                  else []
              | none => []) ++
            (if isUrl && !jsUrlOk s then [{ path := [], message := "Invalid url" }] else [])
          (issues, if issues.isEmpty then some (.str s) else none)
      | _ => ([{ path := [], message := "Expected string, received " ++ jsTypeNameOf v }], none)
  | _ + 1, .znumber isInt minv maxv _, some v =>
      match v with
      | .num q =>
          let issues :=
            (if isInt && !q.isInt then
                [{ path := [], message := "Expected integer, received float" }]
              else []) ++
            (match minv with
              | some m =>
                  if q.lt m then
                    [{ path := [], message := "Number must be greater than or equal to " ++ jsNumToString m }]
                  else []
              | none => []) ++
            (match maxv with
              | some m =>
                  if m.lt q then
                    [{ path := [], message := "Number must be less than or equal to " ++ jsNumToString m }]
                  else []
              | none => [])
          (issues, if issues.isEmpty then some (.num q) else none)
      | _ => ([{ path := [], message := "Expected number, received " ++ jsTypeNameOf v }], none)
  | _ + 1, .zenum values _, some v =>
      match v with
      | .str s =>
          if values.contains s then ([], some (.str s))
          else
            ([{ path := [],
                message := "Invalid enum value. Expected " ++ quoteJoin values ++
                  ", received " ++ sq ++ s ++ sq }], none)
      | _ =>
          ([{ path := [],
              message := "Expected " ++ quoteJoin values ++ ", received " ++ jsTypeNameOf v }], none)
  | _ + 1, .zliteral lit _, some v =>
      match v with
      | .str s =>
          if s == lit then ([], some (.str s))
          else ([{ path := [], message := "Invalid literal value, expected \"" ++ lit ++ "\"" }], none)
      | _ => ([{ path := [], message := "Invalid literal value, expected \"" ++ lit ++ "\"" }], none)
  | _ + 1, .zrecordUnknown _, some v =>
      match v with
      | .obj fields => ([], some (.obj fields))
      | _ => ([{ path := [], message := "Expected object, received " ++ jsTypeNameOf v }], none)
  | fuel + 1, .zarray elem minLen _, some v =>
      match v with
      | .arr xs =>
          let minIssues :=
            match minLen with
            | some m =>
                if xs.length < m then
                  [{ path := [], message := "Array must contain at least " ++ toString m ++ " element(s)" }]
                else []
            | none => []
          let results := xs.enum.map fun p =>
            let r := parseF fuel elem (some p.2)
            (prefixIssues (.index p.1) r.1, r.2)
          let issues := minIssues ++ (results.map Prod.fst).foldr (· ++ ·) []
          (issues, if issues.isEmpty then some (.arr (results.filterMap Prod.snd)) else none)
      | _ => ([{ path := [], message := "Expected array, received " ++ jsTypeNameOf v }], none)
  | fuel + 1, .zobject shape _, some v =>
      match v with
      | .obj fields =>
          let results := shape.map fun p =>
            let r := parseF fuel p.2 ((fields.find? fun q => q.1 == p.1).map (fun q => q.2))
            (prefixIssues (.field p.1) r.1, (p.1, r.2))
          let issues := (results.map Prod.fst).foldr (· ++ ·) []
          let outFields := results.filterMap fun pr => pr.2.2.map fun val => (pr.2.1, val)
          (issues, if issues.isEmpty then some (.obj outFields) else none)
      | _ => ([{ path := [], message := "Expected object, received " ++ jsTypeNameOf v }], none)
  | fuel + 1, .zdiscUnion disc branches _, some v =>
      match v with
      | .obj fields =>
          let discVal := (fields.find? fun q => q.1 == disc).map (fun q => q.2)
          match branches.find? fun b => discMatches disc b discVal with
          | some branch => parseF fuel branch (some (.obj fields))
          | none =>
              ([{ path := [.field disc],
                  message := "Invalid discriminator value. Expected " ++
                    quoteJoin (branches.filterMap (discLiteral disc)) }], none)
      | _ => ([{ path := [], message := "Expected object, received " ++ jsTypeNameOf v }], none)

/-- Zod `schema.parse(value)`: succeeds with the parsed value exactly when no
issue was collected, otherwise fails with the full issue list of the thrown
ZodError. -/
def validate (s : ZodSchema) (v : JValue) : Except (List ZodIssue) JValue :=
  let r := parseF s.depth s (some v)
  if r.1.isEmpty then .ok (r.2.getD JValue.null) else .error r.1

/-- One item of a Tool Result: the interface fixes `type` to the string
"text", so a content item is just its text payload. -/
inductive ToolResponseContent where
  | text (s : String)
deriving DecidableEq

/-- The ToolResponse interface: an ordered content list and the optional
isError flag (absent models the TypeScript `undefined`). -/
structure ToolResponse where
  content : List ToolResponseContent
  isError : Option Bool
deriving DecidableEq

/-- A value thrown by a handler or by `parse`: a ZodError carrying its issue
list, an Error instance carrying its message, or any other value carried as
its JavaScript string coercion. -/
inductive Thrown where
  | zodError (issues : List ZodIssue)
  | jsError (message : String)
  | other (stringRep : String)
deriving DecidableEq

/-- Outcome of awaiting a handler: a settled ToolResponse, or a thrown value
(whether thrown synchronously or as a rejected promise). -/
inductive HandlerOutcome where
  | ok (r : ToolResponse)
  | threw (e : Thrown)
deriving DecidableEq

/-- The ToolDefinition interface: name, description, zod input schema and
async handler. -/
structure ToolDefinition where
  name : String
  description : String
  inputSchema : ZodSchema
  handler : JValue → HandlerOutcome

/-- Rendering of one zod issue inside the dispatcher error text:
`path.join(".")`, a colon, and the message. -/
def PathSeg.render : PathSeg → String
  | .field s => s
  | .index n => toString n

/-- JavaScript `path.join(".")` on a zod issue path. -/
def pathJoin (p : List PathSeg) : String :=
  String.intercalate "." (p.map PathSeg.render)

/-- The dispatcher text for a caught ZodError: the "Invalid arguments"
prefix, then every issue as `path: message`, joined by commas. -/
def zodErrorText (issues : List ZodIssue) : String :=
  "Invalid arguments: " ++
    String.intercalate ", " (issues.map fun e => pathJoin e.path ++ ": " ++ e.message)

/-- The catch block of the call handler: a ZodError becomes the validation
error text; any other thrown value becomes the executing-tool error text,
from its message when it is an Error and from its string coercion otherwise.
Every branch yields isError true. -/
def catchResponse : Thrown → ToolResponse
  | .zodError issues => { content := [.text (zodErrorText issues)], isError := some true }
  | .jsError m => { content := [.text ("Error executing tool: " ++ m)], isError := some true }
  | .other s => { content := [.text ("Error executing tool: " ++ s)], isError := some true }

/-- JavaScript truthiness on the modelled values, for `arguments || {}`. -/
def jsFalsy : JValue → Bool
  | .null => true
  | .bool b => !b
  | .num q => q.isZero
  | .str s => s.data.isEmpty
  | _ => false

/-- The expression `request.params.arguments || {}`: absent or falsy
arguments are replaced by an empty record. -/
def argsOrEmpty (args? : Option JValue) : JValue :=
  match args? with
  | none => .obj []
  | some v => if jsFalsy v then .obj [] else v

/-- The CallToolRequestSchema handler: look the tool up by exact name; on a
miss answer the unknown-tool error; otherwise parse the arguments, run the
handler, and normalize the result, with the catch block turning any throw
into an error response. A total function: every call yields exactly one
response. -/
def dispatch (ts : List ToolDefinition) (toolName : String) (args? : Option JValue) :
    ToolResponse :=
  match ts.find? fun t => t.name == toolName with
  | none => { content := [.text ("Unknown tool: " ++ toolName)], isError := some true }
  | some tool =>
    match validate tool.inputSchema (argsOrEmpty args?) with
    | .error issues => catchResponse (.zodError issues)
    | .ok args =>
      match tool.handler args with
      | .ok result => { content := result.content, isError := some (result.isError.getD false) }
      | .threw e => catchResponse e

/-- A dispatch outcome together with the fact of handler invocation, used to
state that certain paths never reach a handler. -/
structure Dispatched where
  response : ToolResponse
  handlerRan : Bool
deriving DecidableEq

/-- Instrumented variant of `dispatch`: the same control flow, additionally
recording whether the handler of the resolved tool was invoked. -/
def dispatchT (ts : List ToolDefinition) (toolName : String) (args? : Option JValue) :
    Dispatched :=
  match ts.find? fun t => t.name == toolName with
  | none => ⟨{ content := [.text ("Unknown tool: " ++ toolName)], isError := some true }, false⟩
  | some tool =>
    match validate tool.inputSchema (argsOrEmpty args?) with
    | .error issues => ⟨catchResponse (.zodError issues), false⟩
    | .ok args =>
      match tool.handler args with
      | .ok result =>
          ⟨{ content := result.content, isError := some (result.isError.getD false) }, true⟩
      | .threw e => ⟨catchResponse e, true⟩

/-- Sanity: the instrumented dispatcher computes the same response. -/
theorem dispatch_eq_dispatchT (ts : List ToolDefinition) (toolName : String)
    (args? : Option JValue) : dispatch ts toolName args? = (dispatchT ts toolName args?).response := by
  unfold dispatch dispatchT
  cases ts.find? fun t => t.name == toolName with
  | none => rfl
  | some tool =>
    dsimp only
    cases validate tool.inputSchema (argsOrEmpty args?) with
    | error issues => rfl
    | ok args =>
      dsimp only
      cases tool.handler args with
      | ok result => rfl
      | threw e => rfl

/-- Field lookup on a validated argument object, as the handler destructuring
`const { ... } = args` reads one property. -/
def jLookup (args : JValue) (key : String) : Option JValue :=
  match args with
  | .obj fields => (fields.find? fun q => q.1 == key).map fun q => q.2
  | _ => none

/-- String property of a validated argument object. The handlers run only on
schema-validated arguments, where the typed fields are present; the fallback
arms are never reached on such input. -/
def jGetStr (args : JValue) (key : String) : String :=
  match jLookup args key with
  | some (.str s) => s
  | _ => ""

/-- Numeric property of a validated argument object; see `jGetStr`. -/
def jGetNum (args : JValue) (key : String) : JsNum :=
  match jLookup args key with
  | some (.num q) => q
  | _ => 0

/-- The calculator handler of src/tools/calculator.tool.ts: destructure
operation, a and b; reject division by zero; otherwise compute and format
`a operation b = result`, with a defensive default arm for an unknown
operation. -/
def calculatorHandler (args : JValue) : HandlerOutcome :=
  let operation := jGetStr args "operation"
  let a := jGetNum args "a"
  let b := jGetNum args "b"
  if operation == "divide" && b.isZero then
    .ok { isError := some true, content := [.text "Error: Cannot divide by zero"] }
  else
    let answer (result : JsNum) : HandlerOutcome :=
      .ok { content := [.text (jsNumToString a ++ " " ++ operation ++ " " ++
              jsNumToString b ++ " = " ++ jsNumToString result)], isError := none }
    match operation with
    | "add" => answer (a.add b)
    | "subtract" => answer (a.sub b)
    | "multiply" => answer (a.mul b)
    | "divide" => answer (a.div b)
    | _ => .ok { isError := some true,
                 content := [.text ("Error: Unknown operation: " ++ operation)] }

/-- The calculator tool of src/tools/calculator.tool.ts. It is defined in the
repository but does not appear in the registry of src/tools/index.ts. -/
def calculatorTool : ToolDefinition :=
  { name := "calculate"
  , description := "Perform basic arithmetic operations (add, subtract, multiply, divide)"
  , inputSchema := .zobject
      [ ("operation", .zenum ["add", "subtract", "multiply", "divide"]
          (some "The arithmetic operation to perform"))
      , ("a", .znumber false none none (some "The first number"))
      , ("b", .znumber false none none (some "The second number")) ] none
  , handler := calculatorHandler }

/-- JavaScript toUpperCase, character by character; ASCII-faithful, and no
claim exercises non-ASCII input. -/
def jsToUpperCase (s : String) : String := String.mk (s.data.map Char.toUpper)

/-- JavaScript toLowerCase, character by character; see `jsToUpperCase`. -/
def jsToLowerCase (s : String) : String := String.mk (s.data.map Char.toLower)

/-- The echo handler of src/tools/echo.tool.ts: echo the message, optionally
upper- or lower-cased. -/
def echoHandler (args : JValue) : HandlerOutcome :=
  let message := jGetStr args "message"
  let result :=
    match jGetStr args "transform" with
    | "uppercase" => jsToUpperCase message
    | "lowercase" => jsToLowerCase message
    | _ => message
  .ok { content := [.text result], isError := none }

/-- The echo tool of src/tools/echo.tool.ts. It is defined in the repository
but does not appear in the registry of src/tools/index.ts. -/
def echoTool : ToolDefinition :=
  { name := "echo"
  , description := "Echo a message back, optionally transforming it to uppercase or lowercase"
  , inputSchema := .zobject
      [ ("message", .zstring none false (some "The message to echo back"))
      , ("transform", .zdefault
          (.zoptional (.zenum ["uppercase", "lowercase", "none"] none) none)
          (.str "none")
          (some "Optional text transformation to apply")) ] none
  , handler := echoHandler }

/-- The `query` field of the serper search schema: `z.string().min(1)`. -/
def serperQueryField : ZodSchema := .zstring (some 1) false (some "Search query")

/-- The `num` field of the serper search schema:
`z.number().int().min(1).max(100).default(10)`; the description installed by
the final `.describe` lives on the ZodDefault wrapper. -/
def serperNumField : ZodSchema :=
  .zdefault (.znumber true (some 1) (some 100) none) (.num 10)
    (some "Number of results to return (1-100, default: 10)")

/-- Input schema of the serper search tool. -/
def serperSchema : ZodSchema :=
  .zobject [("query", serperQueryField), ("num", serperNumField)] none

/-- The serper search tool of src/tools/serper.tool.ts. Its handler calls the
Serper web API; that external interaction is not modelled, so the handler is
a parameter. -/
def serperTool (handler : JValue → HandlerOutcome) : ToolDefinition :=
  { name := "non_code_web_search"
  , description := "Search the web and extract structured data (titles, URLs, snippets) from multiple search results. Use this for discovering sources, researching topics, finding documentation, or exploring options. Ideal for data extraction when you need to identify relevant URLs or gather information from across multiple web sources."
  , inputSchema := serperSchema
  , handler := handler }

/-- Schema of the supabase insert command. -/
def insertSchema : ZodSchema := .zobject
  [ ("command", .zliteral "insert" none)
  , ("table", .zstring (some 1) false (some "The table name to insert into"))
  , ("records", .zarray (.zrecordUnknown none) (some 1) (some "Array of records to insert")) ] none

/-- Schema of the join table configuration. -/
def joinConfigSchema : ZodSchema := .zobject
  [ ("table", .zstring (some 1) false (some "The join table name"))
  , ("src", .zstring (some 1) false (some "Column name for source foreign key"))
  , ("dst", .zstring (some 1) false (some "Column name for destination foreign key")) ] none

/-- Schema of a lookup table configuration. -/
def lookupConfigSchema : ZodSchema := .zobject
  [ ("table", .zstring (some 1) false (some "The table to look up IDs from"))
  , ("column", .zstring (some 1) false (some "The column to match values against")) ] none

/-- Schema of one src/dst value pair. -/
def pairSchema : ZodSchema := .zobject
  [ ("src", .zstring none false (some "Source value to look up"))
  , ("dst", .zstring none false (some "Destination value to look up")) ] none

/-- Schema of the supabase insert_join command; the sub-configurations carry
the descriptions installed by `.describe` at their use sites. -/
def insertJoinSchema : ZodSchema := .zobject
  [ ("command", .zliteral "insert_join" none)
  , ("join", joinConfigSchema.describe "Join table configuration")
  , ("src", lookupConfigSchema.describe "Source table lookup configuration")
  , ("dst", lookupConfigSchema.describe "Destination table lookup configuration")
  , ("pairs", .zarray pairSchema (some 1) (some "Array of src/dst value pairs")) ] none

/-- Combined supabase input schema: a discriminated union on `command`. -/
def supabaseInputSchema : ZodSchema :=
  .zdiscUnion "command" [insertSchema, insertJoinSchema] none

/-- The supabase bulk tool of src/tools/supabase-bulk.tool.ts. Its handler
talks to a Supabase database; that external interaction is not modelled, so
the handler is a parameter. -/
def supabaseBulkTool (handler : JValue → HandlerOutcome) : ToolDefinition :=
  { name := "supabase_bulk"
  , description := "Perform bulk database operations on Supabase. Supports two commands:\n\n1. \"insert\" - Bulk insert records into a table\n   Required: command=\"insert\", table (string), records (array of objects)\n\n2. \"insert_join\" - Insert join table records by looking up IDs from related tables\n   Required: command=\"insert_join\", join (table config), src (lookup config), dst (lookup config), pairs (array of \x7bsrc, dst\x7d values)"
  , inputSchema := supabaseInputSchema
  , handler := handler }

/-- Input schema of the tight web fetch tool: `z.string().url()`. -/
def tightWebFetchSchema : ZodSchema :=
  .zobject [("url", .zstring none true (some "The URL to fetch and convert to markdown"))] none

/-- The tight web fetch tool of src/tools/tight-web-fetch.tool.ts. Its
handler fetches a URL over the network; that external interaction is not
modelled, so the handler is a parameter. -/
def tightWebFetchTool (handler : JValue → HandlerOutcome) : ToolDefinition :=
  { name := "tight_web_fetch"
  , description := "Extract complete content from a specific URL by fetching and converting HTML to clean markdown. Use this for deep data extraction from a single source - perfect for pulling full text from documentation pages, articles, blog posts, or any web page. Returns structured markdown suitable for parsing, analysis, or reading the entire page content."
  , inputSchema := tightWebFetchSchema
  , handler := handler }

/-- The registry of src/tools/index.ts, in source order, parameterized by the
unmodelled I/O handlers of its three tools. -/
def tools (serperH supabaseH tightH : JValue → HandlerOutcome) : List ToolDefinition :=
  [serperTool serperH, supabaseBulkTool supabaseH, tightWebFetchTool tightH]

/-- Stand-in for a handler whose outcome is an unmodelled external effect;
used only to instantiate the registry in closed statements whose truth does
not depend on handler behavior. -/
def unmodeledEffect : JValue → HandlerOutcome :=
  fun _ => .threw (.other "unmodeled external effect")

/-- One advertised property of the catalog: the protocol type tag (the list
handler always emits the generic tag "string") and the field description. -/
structure PropertyDesc where
  type : String
  description : String
deriving DecidableEq

/-- The advertised input schema of one catalog entry: `type: "object"`, the
property map in shape order, and the required field names. By construction
this description is flat: a property holds only a type tag and a
description, never a nested schema. -/
structure SchemaDesc where
  type : String
  properties : List (String × PropertyDesc)
  required : List String
deriving DecidableEq

/-- One entry of the listTools catalog. -/
structure ToolListing where
  name : String
  description : String
  inputSchema : SchemaDesc
deriving DecidableEq

/-- The schema walk of the ListToolsRequestSchema handler. The optional chain
`_def?.shape?.()` yields the shape for a ZodObject and nothing otherwise
(modelled by `shapeOrNone`), so a non-object schema degrades to an empty
property map without failing. Every property receives the simplified type
tag "string" and the field description (empty when unset); a field is
required exactly when its outermost typeName is not "ZodOptional". The
source builds properties and required in one loop over the shape; the map
and the order-preserving filter below compute the same two lists. -/
def describeSchema (s : ZodSchema) : SchemaDesc :=
  let shape := s.shapeOrNone.getD []
  { type := "object"
  , properties := shape.map fun p =>
      (p.1, { type := "string", description := (p.2.descr).getD "" })
  , required := (shape.filter fun p => p.2.typeName != "ZodOptional").map Prod.fst }

/-- One catalog entry: name, description, and the walked schema. -/
def describeTool (t : ToolDefinition) : ToolListing :=
  { name := t.name, description := t.description, inputSchema := describeSchema t.inputSchema }

/-- The ListToolsRequestSchema handler: the catalog, recomputed from the
registry on every call (the embedding is a pure function of the registry,
mirroring the absence of any cache in the source). -/
def listTools (ts : List ToolDefinition) : List ToolListing :=
  ts.map describeTool

/-- A handler that throws an Error with message "boom"; instantiates the
unmodelled serper handler in statements about the thrown-failure path. -/
def throwingBoom : JValue → HandlerOutcome := fun _ => .threw (.jsError "boom")

/-- A handler that throws a non-Error value whose string coercion is "null";
instantiates the message-less thrown-failure path. -/
def throwingNull : JValue → HandlerOutcome := fun _ => .threw (.other "null")

/-- A handler that always succeeds with one text item and no isError flag. -/
def okHandler : JValue → HandlerOutcome :=
  fun _ => .ok { content := [.text "ok"], isError := none }

/-- The divide-by-zero call arguments of the second spec scenario. -/
def divArgs : JValue :=
  JValue.obj [("operation", JValue.str "divide"), ("a", JValue.num 10), ("b", JValue.num 0)]

/-- C1 counterexample: in the catalog of the actual registry the serper
entry lists "num" among `required` although its schema gives it a default
value and does not mark it optional, and the supabase entry lists no
required field although every branch of its union schema has required
fields. So the claim that `required` holds exactly the no-default
non-optional fields is false on the code. -/
theorem C1_counterexample :
    ((listTools (tools unmodeledEffect unmodeledEffect unmodeledEffect)).map
      fun e => (e.name, e.inputSchema.required)) =
      [("non_code_web_search", ["query", "num"]),
       ("supabase_bulk", []),
       ("tight_web_fetch", ["url"])]
  ∧ zHasDefault serperNumField = true
  ∧ zIsOptional serperNumField = false := ⟨by decide, rfl, rfl⟩

/-- C1 (amended): the catalog `required` array of a plain-object schema
holds exactly the top-level fields whose outermost wrapper is not
ZodOptional, so a field with a default value but without `.optional()` (the
serper `num`) is listed as required, and the union-schema tool exposes no
properties and no required fields at all. -/
theorem C1_required_amended (h1 h2 h3 : JValue → HandlerOutcome) :
    ((listTools (tools h1 h2 h3)).map fun e => (e.name, e.inputSchema.required)) =
      [("non_code_web_search", ["query", "num"]),
       ("supabase_bulk", []),
       ("tight_web_fetch", ["url"])]
  ∧ zHasDefault serperNumField = true
  ∧ zIsOptional serperNumField = false
  ∧ serperSchema.shapeOrNone = some [("query", serperQueryField), ("num", serperNumField)]
  ∧ supabaseInputSchema.shapeOrNone = none
  ∧ (∀ s : ZodSchema, ∀ shape, s.shapeOrNone = some shape →
      (describeSchema s).required = (shape.filter fun p => !zIsOptional p.2).map Prod.fst) := by
  refine ⟨rfl, rfl, rfl, rfl, rfl, ?_⟩
  intro s shape hs
  simp only [describeSchema, hs, Option.getD_some]
  congr 1
  apply List.filter_congr
  intro p _
  obtain ⟨k, fs⟩ := p
  cases fs <;> rfl

/-- C1 (amended) witness: the rule applied to the serper schema. -/
theorem C1_required_amended_witness :
    serperSchema.shapeOrNone = some [("query", serperQueryField), ("num", serperNumField)]
  ∧ (describeSchema serperSchema).required =
      (([("query", serperQueryField), ("num", serperNumField)].filter
        fun p => !zIsOptional p.2).map Prod.fst) :=
  ⟨rfl, (C1_required_amended unmodeledEffect unmodeledEffect unmodeledEffect).2.2.2.2.2
    serperSchema [("query", serperQueryField), ("num", serperNumField)] rfl⟩

/-- C2: a call naming no registered tool resolves to the error result with
isError true and the single text content naming the unknown tool; no handler
runs, and the dispatcher (a total function) still answers the call. -/
theorem C2_unknown_tool (ts : List ToolDefinition) (toolName : String) (args? : Option JValue)
    (h : toolName ∉ ts.map fun t => t.name) :
    dispatchT ts toolName args? =
      ⟨{ content := [.text ("Unknown tool: " ++ toolName)], isError := some true }, false⟩ := by
  have hf : (ts.find? fun t => t.name == toolName) = none := by
    apply List.find?_eq_none.mpr
    intro t ht hbeq
    exact h (beq_iff_eq.mp hbeq ▸ List.mem_map_of_mem (fun t => t.name) ht)
  simp [dispatchT, hf]

/-- C2 witness: Scenario 1 on the actual registry, with the exact text
"Unknown tool: does_not_exist". -/
theorem C2_unknown_tool_witness :
    ("does_not_exist" ∉ (tools unmodeledEffect unmodeledEffect unmodeledEffect).map fun t => t.name)
  ∧ dispatchT (tools unmodeledEffect unmodeledEffect unmodeledEffect) "does_not_exist" none =
      ⟨{ content := [.text "Unknown tool: does_not_exist"], isError := some true }, false⟩ := by
  have h : ("does_not_exist" ∉
      (tools unmodeledEffect unmodeledEffect unmodeledEffect).map fun t => t.name) := by decide
  exact ⟨h, C2_unknown_tool _ _ _ h⟩

/-- C3: when the resolved tool's schema rejects the raw arguments, the call
answers with isError true and one text listing every issue as
`path: message`, comma-joined behind the "Invalid arguments" prefix; the
issue list of a failed validation is never empty; the handler is not
invoked; and absent raw arguments validate exactly as the empty record. -/
theorem C3_validation_failure (ts : List ToolDefinition) (toolName : String)
    (args? : Option JValue) (t : ToolDefinition) (issues : List ZodIssue)
    (hfind : (ts.find? fun u => u.name == toolName) = some t)
    (hval : validate t.inputSchema (argsOrEmpty args?) = Except.error issues) :
    dispatchT ts toolName args? =
      ⟨{ content := [.text ("Invalid arguments: " ++ String.intercalate ", "
            (issues.map fun e => pathJoin e.path ++ ": " ++ e.message))],
         isError := some true }, false⟩
  ∧ issues ≠ []
  ∧ dispatchT ts toolName none = dispatchT ts toolName (some (JValue.obj [])) := by
  refine ⟨?_, ?_, rfl⟩
  · simp [dispatchT, hfind, hval, catchResponse, zodErrorText]
  · intro hnil
    rw [hnil] at hval
    simp only [validate] at hval
    split at hval
    · exact Except.noConfusion hval
    · rename_i hne
      injection hval with hv
      simp [hv] at hne

/-- C3 witness: Scenario 3 on the actual registry, calling the search tool
with no arguments; the single missing-query issue is reported. -/
theorem C3_validation_failure_witness :
    ((tools unmodeledEffect unmodeledEffect unmodeledEffect).find? fun u =>
        u.name == "non_code_web_search") = some (serperTool unmodeledEffect)
  ∧ validate (serperTool unmodeledEffect).inputSchema (argsOrEmpty (none : Option JValue)) =
      Except.error [{ path := [PathSeg.field "query"], message := "Required" }]
  ∧ (dispatchT (tools unmodeledEffect unmodeledEffect unmodeledEffect) "non_code_web_search" none =
      ⟨{ content := [.text "Invalid arguments: query: Required"], isError := some true }, false⟩
    ∧ ([{ path := [PathSeg.field "query"], message := "Required" }] : List ZodIssue) ≠ []
    ∧ dispatchT (tools unmodeledEffect unmodeledEffect unmodeledEffect) "non_code_web_search" none =
        dispatchT (tools unmodeledEffect unmodeledEffect unmodeledEffect) "non_code_web_search"
          (some (JValue.obj []))) :=
  ⟨rfl, rfl, C3_validation_failure (tools unmodeledEffect unmodeledEffect unmodeledEffect)
    "non_code_web_search" none (serperTool unmodeledEffect)
    [{ path := [PathSeg.field "query"], message := "Required" }] rfl rfl⟩

/-- C4 counterexample: on the thrown-failure path the response text is not
the failure's message but that message behind the prefix
"Error executing tool: ", and a message-less thrown value is rendered by its
string coercion, not by a generic "unknown error" string. -/
theorem C4_counterexample :
    (dispatch (tools throwingBoom unmodeledEffect unmodeledEffect) "non_code_web_search"
        (some (JValue.obj [("query", JValue.str "x")]))).content =
      [ToolResponseContent.text "Error executing tool: boom"]
  ∧ ToolResponseContent.text "Error executing tool: boom" ≠ ToolResponseContent.text "boom"
  ∧ (dispatch (tools throwingNull unmodeledEffect unmodeledEffect) "non_code_web_search"
        (some (JValue.obj [("query", JValue.str "x")]))).content =
      [ToolResponseContent.text "Error executing tool: null"]
  ∧ "Error executing tool: null" ≠ "unknown error" :=
  ⟨rfl, by decide, rfl, by decide⟩

/-- C4 (amended): when the resolved tool's handler throws, the dispatcher
catches the failure and answers isError true with one text content equal to
"Error executing tool: " followed by the message when the thrown value is an
Error, or by its string coercion otherwise (a thrown ZodError is rendered
like a validation failure); the dispatcher function is total, so the call
still answers. -/
theorem C4_thrown_failure (ts : List ToolDefinition) (toolName : String) (args? : Option JValue)
    (t : ToolDefinition) (v : JValue) (e : Thrown)
    (hfind : (ts.find? fun u => u.name == toolName) = some t)
    (hval : validate t.inputSchema (argsOrEmpty args?) = Except.ok v)
    (hthrew : t.handler v = HandlerOutcome.threw e) :
    dispatch ts toolName args? =
      { content := [.text (match e with
          | .zodError issues => "Invalid arguments: " ++ String.intercalate ", "
              (issues.map fun i => pathJoin i.path ++ ": " ++ i.message)
          | .jsError m => "Error executing tool: " ++ m
          | .other s => "Error executing tool: " ++ s)],
        isError := some true } := by
  cases e with
  | zodError issues => simp [dispatch, hfind, hval, hthrew, catchResponse, zodErrorText]
  | jsError m => simp [dispatch, hfind, hval, hthrew, catchResponse]
  | other s => simp [dispatch, hfind, hval, hthrew, catchResponse]

/-- C4 (amended) witness: the registry with a serper handler that throws an
Error "boom" answers the prefixed message with isError true. -/
theorem C4_thrown_failure_witness :
    ((tools throwingBoom unmodeledEffect unmodeledEffect).find? fun u =>
        u.name == "non_code_web_search") = some (serperTool throwingBoom)
  ∧ validate (serperTool throwingBoom).inputSchema
      (argsOrEmpty (some (JValue.obj [("query", JValue.str "x")]))) =
      Except.ok (JValue.obj [("query", JValue.str "x"), ("num", JValue.num 10)])
  ∧ (serperTool throwingBoom).handler
      (JValue.obj [("query", JValue.str "x"), ("num", JValue.num 10)]) =
      HandlerOutcome.threw (Thrown.jsError "boom")
  ∧ dispatch (tools throwingBoom unmodeledEffect unmodeledEffect) "non_code_web_search"
      (some (JValue.obj [("query", JValue.str "x")])) =
      { content := [.text "Error executing tool: boom"], isError := some true } :=
  ⟨rfl, rfl, rfl, C4_thrown_failure (tools throwingBoom unmodeledEffect unmodeledEffect)
    "non_code_web_search" (some (JValue.obj [("query", JValue.str "x")]))
    (serperTool throwingBoom) (JValue.obj [("query", JValue.str "x"), ("num", JValue.num 10)])
    (Thrown.jsError "boom") rfl rfl rfl⟩

/-- C5 counterexample: the calculator tool is never registered, so the
divide-by-zero call of Scenario 2 dispatched against the actual registry
answers the unknown-tool error, not the divide-by-zero error claimed. -/
theorem C5_counterexample :
    dispatch (tools unmodeledEffect unmodeledEffect unmodeledEffect) "calculate" (some divArgs) =
      { content := [.text "Unknown tool: calculate"], isError := some true }
  ∧ ({ content := [.text "Unknown tool: calculate"], isError := some true } : ToolResponse) ≠
      { content := [.text "Error: Cannot divide by zero"], isError := some true } :=
  ⟨rfl, by decide⟩

/-- C5 (amended): dispatched against a registry that does contain the
calculator tool, the call `{operation: "divide", a: 10, b: 0}` validates,
reaches the handler, and answers exactly
`{isError: true, content: [{type: "text", text: "Error: Cannot divide by zero"}]}`. -/
theorem C5_divide_by_zero_amended :
    dispatch [calculatorTool] "calculate" (some divArgs) =
      { content := [.text "Error: Cannot divide by zero"], isError := some true } := rfl

/-- C6: listing is idempotent (the catalog is a pure function of the
registry, recomputed on each call with no cache to go stale), and entry i of
the catalog is exactly the name, description and freshly walked input schema
of descriptor i of the registry, in registration order. -/
theorem C6_list_idempotent_fresh (h1 h2 h3 : JValue → HandlerOutcome) :
    listTools (tools h1 h2 h3) = listTools (tools h1 h2 h3)
  ∧ (listTools (tools h1 h2 h3)).length = (tools h1 h2 h3).length
  ∧ ∀ i : Nat, (listTools (tools h1 h2 h3))[i]? = ((tools h1 h2 h3)[i]?).map fun t =>
      { name := t.name, description := t.description, inputSchema := describeSchema t.inputSchema } := by
  refine ⟨rfl, rfl, fun i => ?_⟩
  simp only [listTools, List.getElem?_map]
  rfl

/-- C7: lookup in the registry is exact case-sensitive string matching:
every registered descriptor is found under its own name, any name outside
the registry yields not-found, and a case variant of a registered name is
not found. -/
theorem C7_find_contract (h1 h2 h3 : JValue → HandlerOutcome) :
    (∀ t ∈ tools h1 h2 h3, ((tools h1 h2 h3).find? fun u => u.name == t.name) = some t)
  ∧ (∀ n : String, n ∉ ((tools h1 h2 h3).map fun t => t.name) →
      ((tools h1 h2 h3).find? fun u => u.name == n) = none)
  ∧ ((tools h1 h2 h3).find? fun u => u.name == "Supabase_Bulk") = none
  ∧ ((tools h1 h2 h3).find? fun u => u.name == "supabase_bulk") = some (supabaseBulkTool h2) := by
  refine ⟨?_, ?_, rfl, rfl⟩
  · intro t ht
    simp only [tools, List.mem_cons, List.not_mem_nil, or_false] at ht
    rcases ht with rfl | rfl | rfl <;> rfl
  · intro n hn
    apply List.find?_eq_none.mpr
    intro t ht hbeq
    exact hn (beq_iff_eq.mp hbeq ▸ List.mem_map_of_mem (fun t => t.name) ht)

/-- C7 witness: the unregistered name "calculate" is not found. -/
theorem C7_find_contract_witness :
    ("calculate" ∉ ((tools unmodeledEffect unmodeledEffect unmodeledEffect).map fun t => t.name))
  ∧ ((tools unmodeledEffect unmodeledEffect unmodeledEffect).find? fun u =>
      u.name == "calculate") = none := by
  have h : ("calculate" ∉
      ((tools unmodeledEffect unmodeledEffect unmodeledEffect).map fun t => t.name)) := by decide
  exact ⟨h, (C7_find_contract unmodeledEffect unmodeledEffect unmodeledEffect).2.1 "calculate" h⟩

/-- C8: dispatch is a total function, so each call yields exactly one
response. On the error paths the dispatcher itself builds a singleton
content with isError true (theorems for C2, C3 and C4); on the success path,
rendered here, the response carries the handler content unchanged, so it is
non-empty whenever the handler reported something (the spec obligation on
tools), and isError defaults to false exactly when the handler left the flag
unset. -/
theorem C8_single_result (ts : List ToolDefinition) (toolName : String) (args? : Option JValue)
    (t : ToolDefinition) (v : JValue) (r : ToolResponse)
    (hfind : (ts.find? fun u => u.name == toolName) = some t)
    (hval : validate t.inputSchema (argsOrEmpty args?) = Except.ok v)
    (hh : t.handler v = HandlerOutcome.ok r)
    (hc : r.content ≠ []) :
    dispatch ts toolName args? = { content := r.content, isError := some (r.isError.getD false) }
  ∧ (dispatch ts toolName args?).content ≠ []
  ∧ (r.isError = none → (dispatch ts toolName args?).isError = some false) := by
  have hd : dispatch ts toolName args? =
      { content := r.content, isError := some (r.isError.getD false) } := by
    simp [dispatch, hfind, hval, hh]
  refine ⟨hd, ?_, ?_⟩
  · rw [hd]; exact hc
  · intro hnone; rw [hd, hnone]; rfl

/-- C8 witness: the registry with an always-succeeding serper handler
answers its single content item with isError false. -/
theorem C8_single_result_witness :
    ((tools okHandler unmodeledEffect unmodeledEffect).find? fun u =>
        u.name == "non_code_web_search") = some (serperTool okHandler)
  ∧ validate (serperTool okHandler).inputSchema
      (argsOrEmpty (some (JValue.obj [("query", JValue.str "y")]))) =
      Except.ok (JValue.obj [("query", JValue.str "y"), ("num", JValue.num 10)])
  ∧ (serperTool okHandler).handler
      (JValue.obj [("query", JValue.str "y"), ("num", JValue.num 10)]) =
      HandlerOutcome.ok { content := [.text "ok"], isError := none }
  ∧ ({ content := [.text "ok"], isError := none } : ToolResponse).content ≠ []
  ∧ dispatch (tools okHandler unmodeledEffect unmodeledEffect) "non_code_web_search"
      (some (JValue.obj [("query", JValue.str "y")])) =
      { content := [.text "ok"], isError := some false } := by
  refine ⟨rfl, rfl, rfl, by decide, ?_⟩
  exact (C8_single_result (tools okHandler unmodeledEffect unmodeledEffect) "non_code_web_search"
    (some (JValue.obj [("query", JValue.str "y")])) (serperTool okHandler)
    (JValue.obj [("query", JValue.str "y"), ("num", JValue.num 10)])
    { content := [.text "ok"], isError := none } rfl rfl rfl (by decide)).1

/-- C9: walking every registered schema during listing never fails — the
walk is a total function whose optional chain degrades a non-object schema
to an empty shape — and the resulting descriptions are flat, with the
generic tag "string" on every advertised property; the discriminated-union
tool supabase_bulk yields the flat empty description. -/
theorem C9_union_introspection (h1 h2 h3 : JValue → HandlerOutcome) :
    ((listTools (tools h1 h2 h3)).map fun e =>
      (e.name, e.inputSchema.type, e.inputSchema.properties.map fun p => (p.1, p.2.type),
        e.inputSchema.required)) =
      [("non_code_web_search", "object", [("query", "string"), ("num", "string")], ["query", "num"]),
       ("supabase_bulk", "object", [], []),
       ("tight_web_fetch", "object", [("url", "string")], ["url"])]
  ∧ supabaseInputSchema.typeName = "ZodDiscriminatedUnion"
  ∧ supabaseInputSchema.shapeOrNone = none := ⟨rfl, rfl, rfl⟩

/-- C10: the registry holds exactly the three tools, in source order; the
calculator and echo tools exist in the repository under the names
"calculate" and "echo" but are not registered, so dispatching either name
answers the unknown-tool error without running any handler. -/
theorem C10_registry_contents (h1 h2 h3 : JValue → HandlerOutcome) :
    ((tools h1 h2 h3).map fun t => t.name) =
      ["non_code_web_search", "supabase_bulk", "tight_web_fetch"]
  ∧ calculatorTool.name = "calculate"
  ∧ echoTool.name = "echo"
  ∧ (∀ args? : Option JValue, dispatchT (tools h1 h2 h3) "calculate" args? =
      ⟨{ content := [.text "Unknown tool: calculate"], isError := some true }, false⟩)
  ∧ (∀ args? : Option JValue, dispatchT (tools h1 h2 h3) "echo" args? =
      ⟨{ content := [.text "Unknown tool: echo"], isError := some true }, false⟩) :=
  ⟨rfl, rfl, rfl, fun _ => rfl, fun _ => rfl⟩

end MyMcp
